import Mathlib

/-!
Verification development for the DCSMouseLock control loop (`src/main.py`).

The program is a single-threaded joystick-to-cursor control loop.  This file
gives a shallow embedding of its state, configuration validation, clamping,
toggle state machine, hold-based velocity integration and apply scheduling,
translated directly from the Python source, and proves or refutes the frozen
specification claims about it.

Modelling conventions:
* Python `float` time values (seconds, from `time.monotonic()`) are modelled
  as exact rationals `ℚ`; the literal `0.15` (the debounce constant) is
  modelled as `3/20`.
* Pixel coordinates are `ℤ`.
* `sys.exit(1)` in configuration loading is modelled as `Except.error`.
* Python's built-in `round` (round half to even, i.e. banker's rounding)
  is modelled by `pyRound`.
* External collaborators (live modifier-button state, live cursor position,
  drained pygame events) enter each step as explicit parameters.
-/

/-- Python's `round` on a rational value: nearest integer, ties to even.
`int(round(q))` in the source is exactly this. -/
def pyRound (q : ℚ) : ℤ :=
  let n : ℤ := ⌊q⌋
  let f : ℚ := q - n
  if f < 1/2 then n
  else if 1/2 < f then n + 1
  else if n % 2 = 0 then n else n + 1

/-- A rectangle of screen space: a monitor (`mon` dicts built in
`win_enumerate_monitors` / the non-Windows fallback) or the virtual-desktop
bounding rectangle returned by `win_virtual_desktop_rect`. -/
structure Rect where
  x : ℤ
  y : ℤ
  w : ℤ
  h : ℤ
deriving DecidableEq, Repr

/-- `clamp_target(x, y, mon, clamp_virtual)` from `src/main.py` lines 269-283.
In virtual mode the bounding rectangle `vrect` is the platform-provided
virtual desktop (on non-Windows the same formula with
`vrect = ⟨0, 0, sw, sh⟩`); in monitor mode the selected monitor is used. -/
def clamp_target (x y : ℤ) (mon : Rect) (clamp_virtual : Bool) (vrect : Rect) : ℤ × ℤ :=
  if clamp_virtual = true then
    (max vrect.x (min (vrect.x + vrect.w - 1) x),
     max vrect.y (min (vrect.y + vrect.h - 1) y))
  else
    (max mon.x (min (mon.x + mon.w - 1) x),
     max mon.y (min (mon.y + mon.h - 1) y))

/-- The validated configuration dictionary returned by `load_config`
(`src/main.py` lines 225-246), restricted to the fields with semantic
content (device selectors are resolved upstream of the loop). -/
structure Cfg where
  button_toggle : ℤ
  toggle_req_mod : Bool
  button_off : Option ℤ
  off_req_mod : Bool
  incx : Option ℤ
  incx_req_mod : Bool
  decx : Option ℤ
  decx_req_mod : Bool
  incy : Option ℤ
  incy_req_mod : Bool
  decy : Option ℤ
  decy_req_mod : Bool
  modifier_button : Option ℤ
  nudge_velocity : ℤ
  monitor_index : ℤ
  x_frac : Option ℚ
  y_frac : Option ℚ
  x : Option ℤ
  y : Option ℤ
  poll_hz : ℤ
  startup_grace_ms : ℤ
  repeat_ms : ℤ
  wiggle_one_pixel : Bool
  clamp_space : String
  clamp_virtual : Bool
  restore_on_off : Bool
deriving DecidableEq, Repr

/-- The raw `[input]` section values after the per-key parsing helpers
(`getbool`, `getint_or_none`, `f_or_none`, `parse_button_spec`) have run:
each optional key is `none` when absent/empty.  Input to the validation
logic of `load_config` (`src/main.py` lines 163-246). -/
structure RawInput where
  button_toggle : Option ℤ
  toggle_req_mod : Bool
  button_off : Option ℤ
  off_req_mod : Bool
  incx : Option ℤ
  incx_req_mod : Bool
  decx : Option ℤ
  decx_req_mod : Bool
  incy : Option ℤ
  incy_req_mod : Bool
  decy : Option ℤ
  decy_req_mod : Bool
  modifier_button : Option ℤ
  monitor_index : ℤ
  x_frac : Option ℚ
  y_frac : Option ℚ
  x : Option ℤ
  y : Option ℤ
  poll_hz : ℤ
  startup_grace_ms : ℤ
  repeat_ms : ℤ
  nudge_velocity_px_s : ℤ
  wiggle_one_pixel : Bool
  clamp_space : String
  restore_on_off : Bool
deriving DecidableEq, Repr

/-- The validation part of `load_config` (`src/main.py` lines 163-246):
requires `button_toggle`, requires at least one complete position spec
(`x_frac` and `y_frac`, or `x` and `y`), floors the numeric settings
(`max(10, poll_hz)` etc.), normalises `clamp_space`, and returns the
configuration dictionary.  `sys.exit(1)` is modelled as `Except.error`;
`main` never reaches its loop on an error. -/
def load_config (r : RawInput) : Except String Cfg :=
  match r.button_toggle with
  | none => .error "button_toggle (or legacy key button) is required"
  | some bt =>
    let use_frac : Bool := r.x_frac.isSome && r.y_frac.isSome
    let use_px : Bool := r.x.isSome && r.y.isSome
    if (use_frac || use_px) = false then
      .error "Provide x_frac and y_frac or x and y"
    else
      let clamp_space :=
        if r.clamp_space = "monitor" ∨ r.clamp_space = "virtual" then r.clamp_space
        else "monitor"
      .ok
        { button_toggle := bt
          toggle_req_mod := r.toggle_req_mod
          button_off := r.button_off
          off_req_mod := r.off_req_mod
          incx := r.incx
          incx_req_mod := r.incx_req_mod
          decx := r.decx
          decx_req_mod := r.decx_req_mod
          incy := r.incy
          incy_req_mod := r.incy_req_mod
          decy := r.decy
          decy_req_mod := r.decy_req_mod
          modifier_button := r.modifier_button
          nudge_velocity := max 1 r.nudge_velocity_px_s
          monitor_index := r.monitor_index
          x_frac := r.x_frac
          y_frac := r.y_frac
          x := r.x
          y := r.y
          poll_hz := max 10 r.poll_hz
          startup_grace_ms := max 0 r.startup_grace_ms
          repeat_ms := max 1 r.repeat_ms
          wiggle_one_pixel := r.wiggle_one_pixel
          clamp_space := clamp_space
          clamp_virtual := decide (clamp_space = "virtual")
          restore_on_off := r.restore_on_off }

/-- Base-target computation from `main` (`src/main.py` lines 322-329):
fractional coordinates take the branch when both fractions are present,
otherwise the pixel offsets are used; the result is clamped.  `none`
models the `TypeError` Python would raise if a pixel offset were missing
in the pixel branch (unreachable after `load_config`). -/
def compute_base (cfg : Cfg) (mon : Rect) (vrect : Rect) : Option (ℤ × ℤ) :=
  match cfg.x_frac, cfg.y_frac with
  | some fx, some fy =>
      some (clamp_target (pyRound ((mon.x : ℚ) + fx * (mon.w : ℚ)))
                         (pyRound ((mon.y : ℚ) + fy * (mon.h : ℚ)))
                         mon cfg.clamp_virtual vrect)
  | _, _ =>
      match cfg.x, cfg.y with
      | some px, some py =>
          some (clamp_target (mon.x + px) (mon.y + py) mon cfg.clamp_virtual vrect)
      | _, _ => none

/-- The mutable loop state of `main` (`src/main.py` lines 340-351):
`active`, `saved_cursor`, `target_x`/`target_y`, `wiggle_flip`,
`last_apply`, `last_toggle`, and the four hold flags. -/
structure LoopState where
  active : Bool
  saved_cursor : Option (ℤ × ℤ)
  target_x : ℤ
  target_y : ℤ
  wiggle_flip : Bool
  last_apply : ℚ
  last_toggle : ℚ
  hold_inc_x : Bool
  hold_dec_x : Bool
  hold_inc_y : Bool
  hold_dec_y : Bool
deriving DecidableEq, Repr

/-- Values fixed before the loop starts (`src/main.py` lines 296-348):
the primary device instance id, the selected monitor, the virtual-desktop
rectangle, the clamped base target, the startup-grace deadline and the
re-apply interval `repeat_ms / 1000`. -/
structure Consts where
  instance_id : ℕ
  mon : Rect
  vrect : Rect
  base_x : ℤ
  base_y : ℤ
  grace_until : ℚ
  repeat_interval : ℚ
deriving DecidableEq, Repr

/-- `debounce_s = 0.15` (`src/main.py` line 348), as an exact rational. -/
def debounce_s : ℚ := 3/20

/-- The loop state as initialised at startup (`src/main.py` lines 332,
344-351): inactive, no saved cursor, target at base, at start time `t0`. -/
def initState (K : Consts) (t0 : ℚ) : LoopState :=
  { active := false
    saved_cursor := none
    target_x := K.base_x
    target_y := K.base_y
    wiggle_flip := false
    last_apply := t0
    last_toggle := t0
    hold_inc_x := false
    hold_dec_x := false
    hold_inc_y := false
    hold_dec_y := false }

/-- `modifier_is_down` (`src/main.py` lines 353-357): `False` when no
modifier button is configured; otherwise the live button state of the
modifier device, supplied by the environment as `mod_raw` (a raised
exception while reading it is absorbed into `mod_raw = false`). -/
def modifier_is_down (cfg : Cfg) (mod_raw : Bool) : Bool :=
  if cfg.modifier_button.isSome = true then mod_raw else false

/-- `apply_cursor` (`src/main.py` lines 359-365): the absolute point handed
to the cursor-injection primitive — `target_x` plus a one-pixel jitter
offset when wiggle is enabled and the flip-flop is set, and `target_y`
unchanged.  Both injection back-ends (`SendInput` / `pyautogui.moveTo`)
receive this same point. -/
def apply_cursor (cfg : Cfg) (s : LoopState) : ℤ × ℤ :=
  (s.target_x + (if cfg.wiggle_one_pixel = true ∧ s.wiggle_flip = true then 1 else 0),
   s.target_y)

/-- `toggle_on` (`src/main.py` lines 367-379): when inactive, capture the
live cursor into `saved_cursor`, recenter the target to base, set active,
apply once, stamp `last_apply` and advance the jitter flip-flop.  Returns
the new state and the list of injected cursor positions. -/
def toggle_on (cfg : Cfg) (K : Consts) (now : ℚ) (cursor : ℤ × ℤ) (s : LoopState) :
    LoopState × List (ℤ × ℤ) :=
  if s.active = true then (s, [])
  else
    let s1 := { s with saved_cursor := some cursor
                       target_x := K.base_x
                       target_y := K.base_y
                       active := true }
    ({ s1 with last_apply := now, wiggle_flip := !s1.wiggle_flip }, [apply_cursor cfg s1])

/-- `toggle_off` (`src/main.py` lines 381-393): when active, deactivate,
optionally inject one move to `saved_cursor` (only when restore is
configured and a cursor was saved), stamp `last_apply` and clear the
jitter flip-flop.  A call while already inactive returns immediately. -/
def toggle_off (cfg : Cfg) (now : ℚ) (s : LoopState) : LoopState × List (ℤ × ℤ) :=
  if s.active = false then (s, [])
  else
    let inj : List (ℤ × ℤ) :=
      if cfg.restore_on_off = true then
        match s.saved_cursor with
        | some p => [p]
        | none => []
      else []
    ({ s with active := false, last_apply := now, wiggle_flip := false }, inj)

/-- A drained pygame event, restricted to the kinds the loop dispatches on
(`src/main.py` lines 403-442): button press/release carrying the event's
device id (`instance_id`/`joy`) and button number, and a device-removal
notification whose optional id models `hasattr(event, "instance_id")`. -/
inductive Ev where
  | down (dev : ℕ) (b : ℤ)
  | up (dev : ℕ) (b : ℤ)
  | removed (iid : Option ℕ)
deriving DecidableEq, Repr

/-- The `JOYBUTTONDOWN` dispatch (`src/main.py` lines 413-431), after the
device match has succeeded.  The toggle binding is tried first (press must
satisfy the optional modifier requirement and the shared debounce clock);
on debounce failure the event falls through to the dedicated-off binding
and then to the directional hold bindings, exactly as in the Python
if-chain.  Returns (state, injected cursor moves, loop-terminated). -/
def handleDown (cfg : Cfg) (K : Consts) (now : ℚ) (mod_raw : Bool) (cursor : ℤ × ℤ)
    (s : LoopState) (b : ℤ) : LoopState × List (ℤ × ℤ) × Bool :=
  if b = cfg.button_toggle ∧ (cfg.toggle_req_mod = false ∨ modifier_is_down cfg mod_raw = true)
      ∧ debounce_s ≤ now - s.last_toggle then
    let r := if s.active = true then toggle_off cfg now s else toggle_on cfg K now cursor s
    ({ r.1 with last_toggle := now }, r.2, false)
  else if cfg.button_off = some b ∧ (cfg.off_req_mod = false ∨ modifier_is_down cfg mod_raw = true)
      ∧ debounce_s ≤ now - s.last_toggle then
    let r := toggle_off cfg now s
    ({ r.1 with last_toggle := now }, r.2, false)
  else if cfg.incx = some b then ({ s with hold_inc_x := true }, [], false)
  else if cfg.decx = some b then ({ s with hold_dec_x := true }, [], false)
  else if cfg.incy = some b then ({ s with hold_inc_y := true }, [], false)
  else if cfg.decy = some b then ({ s with hold_dec_y := true }, [], false)
  else (s, [], false)

/-- The `JOYBUTTONUP` dispatch (`src/main.py` lines 433-438): the four
hold flags are cleared by independent (non-exclusive) checks. -/
def handleUp (cfg : Cfg) (s : LoopState) (b : ℤ) : LoopState :=
  let s := if cfg.incx = some b then { s with hold_inc_x := false } else s
  let s := if cfg.decx = some b then { s with hold_dec_x := false } else s
  let s := if cfg.incy = some b then { s with hold_inc_y := false } else s
  let s := if cfg.decy = some b then { s with hold_dec_y := false } else s
  s

/-- Processing of one drained event (`src/main.py` lines 403-442).  Within
the startup grace period every event is discarded (`continue`), including
device-removal notifications.  Button events are matched against the
primary device; a removal whose `instance_id` equals the primary device's
terminates the loop (`return`), modelled by the final `Bool`. -/
def processEvent (cfg : Cfg) (K : Consts) (now : ℚ) (mod_raw : Bool) (cursor : ℤ × ℤ)
    (s : LoopState) : Ev → LoopState × List (ℤ × ℤ) × Bool
  | e =>
    if now < K.grace_until then (s, [], false)
    else
      match e with
      | .down dev b =>
          if dev = K.instance_id then handleDown cfg K now mod_raw cursor s b
          else (s, [], false)
      | .up dev b =>
          if dev = K.instance_id then (handleUp cfg s b, [], false)
          else (s, [], false)
      | .removed iid =>
          if iid = some K.instance_id then (s, [], true) else (s, [], false)

/-- Per-axis velocity term (`src/main.py` lines 445-448): `+1` for a held
increase whose modifier requirement is satisfied right now, `-1` likewise
for decrease, summed. -/
def axisVel (holdInc incReq holdDec decReq m : Bool) : ℤ :=
  (if holdInc = true ∧ (incReq = false ∨ m = true) then 1 else 0)
    - (if holdDec = true ∧ (decReq = false ∨ m = true) then 1 else 0)

/-- The hold-movement section of the tick (`src/main.py` lines 444-457):
recompute both axis velocities against the live modifier state, integrate
over the real elapsed time `dt`, and when a rounded step is non-zero move
the target, clamp it, and — only while active — apply immediately,
stamping `last_apply` and advancing the jitter flip-flop. -/
def moveStep (cfg : Cfg) (K : Consts) (now dt : ℚ) (mod_raw : Bool) (s : LoopState) :
    LoopState × List (ℤ × ℤ) :=
  let m := modifier_is_down cfg mod_raw
  let vx := axisVel s.hold_inc_x cfg.incx_req_mod s.hold_dec_x cfg.decx_req_mod m
  let vy := axisVel s.hold_inc_y cfg.incy_req_mod s.hold_dec_y cfg.decy_req_mod m
  if vx ≠ 0 ∨ vy ≠ 0 then
    let step_x := pyRound ((vx : ℚ) * (cfg.nudge_velocity : ℚ) * dt)
    let step_y := pyRound ((vy : ℚ) * (cfg.nudge_velocity : ℚ) * dt)
    if step_x ≠ 0 ∨ step_y ≠ 0 then
      let p := clamp_target (s.target_x + step_x) (s.target_y + step_y)
                 K.mon cfg.clamp_virtual K.vrect
      let s1 := { s with target_x := p.1, target_y := p.2 }
      if s1.active = true then
        ({ s1 with last_apply := now, wiggle_flip := !s1.wiggle_flip }, [apply_cursor cfg s1])
      else (s1, [])
    else (s, [])
  else (s, [])

/-- The periodic re-apply (`src/main.py` lines 460-464): while active, once
`repeat_interval` has elapsed since the last apply, re-assert the cursor,
stamp `last_apply` and advance the jitter flip-flop. -/
def reapplyStep (cfg : Cfg) (K : Consts) (now : ℚ) (s : LoopState) :
    LoopState × List (ℤ × ℤ) :=
  if s.active = true ∧ K.repeat_interval ≤ now - s.last_apply then
    ({ s with last_apply := now, wiggle_flip := !s.wiggle_flip }, [apply_cursor cfg s])
  else (s, [])

/-- Environment of one drained event: the live modifier-device button state
and the live cursor position at the instant the event is handled,
together with the event itself. -/
structure EvCtx where
  mod_raw : Bool
  cursor : ℤ × ℤ
  ev : Ev
deriving DecidableEq, Repr

/-- Draining the pending event queue in arrival order (`src/main.py`
line 403): processing stops at the first event that terminates the loop
(`return`); later events are never handled. -/
def drainEvents (cfg : Cfg) (K : Consts) (now : ℚ) :
    List EvCtx → LoopState → LoopState × List (ℤ × ℤ) × Bool
  | [], s => (s, [], false)
  | c :: rest, s =>
      let r := processEvent cfg K now c.mod_raw c.cursor s c.ev
      if r.2.2 = true then (r.1, r.2.1, true)
      else
        let r2 := drainEvents cfg K now rest r.1
        (r2.1, r.2.1 ++ r2.2.1, r2.2.2)

/-- One full iteration of the control loop (`src/main.py` lines 398-466):
drain events, then — unless the loop was terminated mid-drain — run the
hold-movement integration and the periodic re-apply.  `mod_tick` is the
live modifier state during the integration section. -/
def tick (cfg : Cfg) (K : Consts) (now dt : ℚ) (ctxs : List EvCtx) (mod_tick : Bool)
    (s : LoopState) : LoopState × List (ℤ × ℤ) × Bool :=
  let r := drainEvents cfg K now ctxs s
  if r.2.2 = true then r
  else
    let r1 := moveStep cfg K now dt mod_tick r.1
    let r2 := reapplyStep cfg K now r1.1
    (r2.1, r.2.1 ++ r1.2 ++ r2.2, false)

/-- One atomic state mutation of the loop, at the granularity at which the
source mutates the shared state: handling one drained event, the
hold-movement integration of one tick, or the periodic re-apply of one
tick.  Every execution of `main`'s loop is a sequence of these. -/
inductive MicroStep where
  | ev (now : ℚ) (mod_raw : Bool) (cursor : ℤ × ℤ) (e : Ev)
  | move (now dt : ℚ) (mod_raw : Bool)
  | reapply (now : ℚ)
deriving DecidableEq, Repr

/-- The live cursor position an atomic step can observe (only event steps
read the cursor, inside `toggle_on`). -/
def stepCursor : MicroStep → Option (ℤ × ℤ)
  | .ev _ _ cursor _ => some cursor
  | .move _ _ _ => none
  | .reapply _ => none

/-- Semantics of one atomic loop step. -/
def microStep (cfg : Cfg) (K : Consts) : MicroStep → LoopState → LoopState × List (ℤ × ℤ) × Bool
  | .ev now m cursor e, s => processEvent cfg K now m cursor s e
  | .move now dt m, s => let r := moveStep cfg K now dt m s; (r.1, r.2, false)
  | .reapply now, s => let r := reapplyStep cfg K now s; (r.1, r.2, false)

/-- The trajectory of loop states along a sequence of atomic steps,
starting from `s0` (the state itself included first). -/
def runStates (cfg : Cfg) (K : Consts) (s0 : LoopState) (steps : List MicroStep) :
    List LoopState :=
  List.scanl (fun s m => (microStep cfg K m s).1) s0 steps

/-! ### Basic facts about the operations -/

theorem pyRound_zero : pyRound 0 = 0 := by
  simp [pyRound]

theorem toggle_on_eq (cfg : Cfg) (K : Consts) (now : ℚ) (cursor : ℤ × ℤ) (s : LoopState)
    (h : s.active = false) :
    toggle_on cfg K now cursor s =
      ({ s with saved_cursor := some cursor, target_x := K.base_x, target_y := K.base_y,
                active := true, last_apply := now, wiggle_flip := !s.wiggle_flip },
       [(K.base_x + (if cfg.wiggle_one_pixel = true ∧ s.wiggle_flip = true then 1 else 0),
         K.base_y)]) := by
  simp [toggle_on, h, apply_cursor]

theorem toggle_off_inactive (cfg : Cfg) (now : ℚ) (s : LoopState) (h : s.active = false) :
    toggle_off cfg now s = (s, []) := by
  simp [toggle_off, h]

theorem toggle_off_state (cfg : Cfg) (now : ℚ) (s : LoopState) (h : s.active = true) :
    (toggle_off cfg now s).1 =
      { s with active := false, last_apply := now, wiggle_flip := false } := by
  simp [toggle_off, h]

theorem toggle_off_active (cfg : Cfg) (now : ℚ) (s : LoopState) :
    (toggle_off cfg now s).1.active = false := by
  unfold toggle_off
  split
  · simp_all
  · simp_all

theorem toggle_off_preserves (cfg : Cfg) (now : ℚ) (s : LoopState) :
    (toggle_off cfg now s).1.saved_cursor = s.saved_cursor ∧
    (toggle_off cfg now s).1.target_x = s.target_x ∧
    (toggle_off cfg now s).1.target_y = s.target_y := by
  unfold toggle_off
  split
  · exact ⟨rfl, rfl, rfl⟩
  · exact ⟨rfl, rfl, rfl⟩

theorem handleUp_preserves (cfg : Cfg) (s : LoopState) (b : ℤ) :
    (handleUp cfg s b).active = s.active ∧
    (handleUp cfg s b).saved_cursor = s.saved_cursor ∧
    (handleUp cfg s b).target_x = s.target_x ∧
    (handleUp cfg s b).target_y = s.target_y := by
  unfold handleUp
  split <;> split <;> split <;> split <;> exact ⟨rfl, rfl, rfl, rfl⟩

theorem moveStep_active (cfg : Cfg) (K : Consts) (now dt : ℚ) (mr : Bool) (s : LoopState) :
    (moveStep cfg K now dt mr s).1.active = s.active := by
  unfold moveStep
  dsimp only
  split
  · split
    · split
      · rfl
      · rfl
    · rfl
  · rfl

theorem moveStep_saved (cfg : Cfg) (K : Consts) (now dt : ℚ) (mr : Bool) (s : LoopState) :
    (moveStep cfg K now dt mr s).1.saved_cursor = s.saved_cursor := by
  unfold moveStep
  dsimp only
  split
  · split
    · split
      · rfl
      · rfl
    · rfl
  · rfl

theorem reapplyStep_active (cfg : Cfg) (K : Consts) (now : ℚ) (s : LoopState) :
    (reapplyStep cfg K now s).1.active = s.active ∧
    (reapplyStep cfg K now s).1.saved_cursor = s.saved_cursor ∧
    (reapplyStep cfg K now s).1.target_x = s.target_x ∧
    (reapplyStep cfg K now s).1.target_y = s.target_y := by
  unfold reapplyStep
  split
  · exact ⟨rfl, rfl, rfl, rfl⟩
  · exact ⟨rfl, rfl, rfl, rfl⟩

/-! ### C3 — clamp purity, idempotence and range -/

/-- Claim C3 (counterexample): the claim asserts that for every region
geometry the region-local clamp result lies in
`[region.x, region.x + region.width - 1]`; for the degenerate region
`⟨0, 0, 0, 1⟩` (width 0) the clamp of the point `(5, 5)` is `(0, 0)`,
whose x-coordinate exceeds `region.x + region.width - 1 = -1`, so the
containment conjunct fails. -/
theorem C3_clamp_cex :
    clamp_target 5 5 ⟨0, 0, 0, 1⟩ false ⟨0, 0, 100, 100⟩ = (0, 0) ∧
    ¬ ((clamp_target 5 5 ⟨0, 0, 0, 1⟩ false ⟨0, 0, 100, 100⟩).1 ≤ 0 + 0 - 1) := by
  constructor
  · decide
  · decide

/-- Claim C3 (amended): `clamp_target` is idempotent for every point,
geometry and mode; it is a pure function of the point, mode and geometry;
and in region-local mode, provided the region is non-degenerate
(width ≥ 1 and height ≥ 1), the result lies in
`[region.x, region.x + region.width - 1] × [region.y, region.y + region.height - 1]`. -/
theorem C3_clamp_amended :
    (∀ (x y : ℤ) (mon vrect : Rect) (cv : Bool),
        clamp_target (clamp_target x y mon cv vrect).1 (clamp_target x y mon cv vrect).2
            mon cv vrect
          = clamp_target x y mon cv vrect) ∧
    (∀ (x y x' y' : ℤ) (mon mon' vrect vrect' : Rect) (cv cv' : Bool),
        x = x' → y = y' → mon = mon' → cv = cv' → vrect = vrect' →
        clamp_target x y mon cv vrect = clamp_target x' y' mon' cv' vrect') ∧
    (∀ (x y : ℤ) (mon vrect : Rect), 1 ≤ mon.w → 1 ≤ mon.h →
        mon.x ≤ (clamp_target x y mon false vrect).1 ∧
        (clamp_target x y mon false vrect).1 ≤ mon.x + mon.w - 1 ∧
        mon.y ≤ (clamp_target x y mon false vrect).2 ∧
        (clamp_target x y mon false vrect).2 ≤ mon.y + mon.h - 1) := by
  refine ⟨?_, ?_, ?_⟩
  · intro x y mon vrect cv
    unfold clamp_target
    cases cv <;> simp only [Bool.false_eq_true, if_false, if_true] <;>
      refine Prod.ext ?_ ?_ <;> dsimp only <;> omega
  · intro x y x' y' mon mon' vrect vrect' cv cv' h1 h2 h3 h4 h5
    subst h1 h2 h3 h4 h5
    rfl
  · intro x y mon vrect hw hh
    unfold clamp_target
    simp only [Bool.false_eq_true, if_false]
    refine ⟨?_, ?_, ?_, ?_⟩ <;> dsimp only <;> omega

/-- Witness for C3 (amended), at the region `⟨0, 0, 1920, 1080⟩` and the
out-of-range point `(2500, -10)`. -/
theorem C3_clamp_amended_witness :
    1 ≤ (Rect.mk 0 0 1920 1080).w ∧ 1 ≤ (Rect.mk 0 0 1920 1080).h ∧
    ((Rect.mk 0 0 1920 1080).x ≤
        (clamp_target 2500 (-10) ⟨0, 0, 1920, 1080⟩ false ⟨0, 0, 1920, 1080⟩).1 ∧
      (clamp_target 2500 (-10) ⟨0, 0, 1920, 1080⟩ false ⟨0, 0, 1920, 1080⟩).1 ≤
        (Rect.mk 0 0 1920 1080).x + (Rect.mk 0 0 1920 1080).w - 1 ∧
      (Rect.mk 0 0 1920 1080).y ≤
        (clamp_target 2500 (-10) ⟨0, 0, 1920, 1080⟩ false ⟨0, 0, 1920, 1080⟩).2 ∧
      (clamp_target 2500 (-10) ⟨0, 0, 1920, 1080⟩ false ⟨0, 0, 1920, 1080⟩).2 ≤
        (Rect.mk 0 0 1920 1080).y + (Rect.mk 0 0 1920 1080).h - 1) :=
  ⟨by decide, by decide,
    C3_clamp_amended.2.2 2500 (-10) ⟨0, 0, 1920, 1080⟩ ⟨0, 0, 1920, 1080⟩
      (by decide) (by decide)⟩


/-! ### Shared concrete sample data for witnesses and counterexamples -/

/-- A 1920x1080 monitor at the origin (Scenario A geometry). -/
def monFHD : Rect := ⟨0, 0, 1920, 1080⟩

/-- A concrete configuration: toggle on button 0, dedicated off on button 3,
directional holds on buttons 4-7, no modifier requirements, 600 px/s. -/
def baseCfg : Cfg :=
  { button_toggle := 0, toggle_req_mod := false, button_off := some 3,
    off_req_mod := false, incx := some 4, incx_req_mod := false,
    decx := some 5, decx_req_mod := false, incy := some 6,
    incy_req_mod := false, decy := some 7, decy_req_mod := false,
    modifier_button := none, nudge_velocity := 600, monitor_index := 0,
    x_frac := some (1/2), y_frac := some (1/2), x := none, y := none,
    poll_hz := 250, startup_grace_ms := 200, repeat_ms := 1000,
    wiggle_one_pixel := false, clamp_space := "monitor",
    clamp_virtual := false, restore_on_off := false }

/-- Concrete loop constants: primary device instance 7, monitor `monFHD`,
base target `(960, 540)`, 200 ms grace, 1 s re-apply interval. -/
def baseK : Consts :=
  { instance_id := 7, mon := monFHD, vrect := monFHD, base_x := 960,
    base_y := 540, grace_until := 1/5, repeat_interval := 1 }

/-- A concrete active state at the base target holding inc-x, with the
jitter flip-flop set and a saved cursor of `(100, 100)`. -/
def stateB : LoopState :=
  { active := true, saved_cursor := some (100, 100), target_x := 960,
    target_y := 540, wiggle_flip := true, last_apply := 9, last_toggle := 9,
    hold_inc_x := true, hold_dec_x := false, hold_inc_y := false,
    hold_dec_y := false }

/-! ### C10 — jitter offset applies to x only -/

theorem moveStep_emit (cfg : Cfg) (K : Consts) (now dt : ℚ) (mr : Bool) (s : LoopState) :
    (moveStep cfg K now dt mr s).2 = [] ∨
    (moveStep cfg K now dt mr s).2 =
      [((moveStep cfg K now dt mr s).1.target_x +
          (if cfg.wiggle_one_pixel = true ∧ s.wiggle_flip = true then 1 else 0),
        (moveStep cfg K now dt mr s).1.target_y)] := by
  unfold moveStep
  dsimp only
  split
  · split
    · split
      · right
        simp [apply_cursor]
      · left; rfl
    · left; rfl
  · left; rfl

/-- Claim C10: every cursor apply emitted by the loop — the immediate apply
in the hold-movement step, the periodic re-apply, and the apply on
activation — moves the cursor to exactly
`(CurrentTarget.x + j, CurrentTarget.y)` where `j` is `1` when jitter is
enabled and the flip-flop is set at apply time and `0` otherwise; the
jitter offset is never applied to y, and with jitter disabled the applied
point is exactly the current target on both axes. -/
theorem C10_jitter_x_only :
    (∀ (cfg : Cfg) (K : Consts) (now dt : ℚ) (mr : Bool) (s : LoopState) (p : ℤ × ℤ),
        p ∈ (moveStep cfg K now dt mr s).2 →
        p.2 = (moveStep cfg K now dt mr s).1.target_y ∧
        p.1 = (moveStep cfg K now dt mr s).1.target_x +
          (if cfg.wiggle_one_pixel = true ∧ s.wiggle_flip = true then 1 else 0)) ∧
    (∀ (cfg : Cfg) (K : Consts) (now : ℚ) (s : LoopState) (p : ℤ × ℤ),
        p ∈ (reapplyStep cfg K now s).2 →
        p.2 = s.target_y ∧
        p.1 = s.target_x +
          (if cfg.wiggle_one_pixel = true ∧ s.wiggle_flip = true then 1 else 0)) ∧
    (∀ (cfg : Cfg) (K : Consts) (now : ℚ) (cursor : ℤ × ℤ) (s : LoopState) (p : ℤ × ℤ),
        p ∈ (toggle_on cfg K now cursor s).2 →
        p.2 = K.base_y ∧
        p.1 = K.base_x +
          (if cfg.wiggle_one_pixel = true ∧ s.wiggle_flip = true then 1 else 0)) ∧
    (∀ (cfg : Cfg) (s : LoopState), cfg.wiggle_one_pixel = false →
        apply_cursor cfg s = (s.target_x, s.target_y)) := by
  refine ⟨?_, ?_, ?_, ?_⟩
  · intro cfg K now dt mr s p hp
    rcases moveStep_emit cfg K now dt mr s with h | h
    · rw [h] at hp
      simp at hp
    · rw [h] at hp
      simp only [List.mem_singleton] at hp
      subst hp
      exact ⟨rfl, rfl⟩
  · intro cfg K now s p hp
    unfold reapplyStep at hp
    split at hp
    · simp only [List.mem_singleton] at hp
      subst hp
      simp [apply_cursor]
    · simp at hp
  · intro cfg K now cursor s p hp
    unfold toggle_on at hp
    split at hp
    · simp at hp
    · simp only [List.mem_singleton] at hp
      subst hp
      simp [apply_cursor]
  · intro cfg s h
    simp [apply_cursor, h]

/-- Witness for C10: a concrete hold-movement apply.  With jitter enabled
and the flip-flop set, the active state `stateB` at `(960, 540)` holding
inc-x for half a second at 600 px/s emits exactly the single point
`(1261, 540)`: the moved-and-clamped target `(1260, 540)` offset by one
pixel in x and none in y. -/
theorem C10_jitter_x_only_witness :
    ((1261 : ℤ), (540 : ℤ)) ∈
      (moveStep { baseCfg with wiggle_one_pixel := true } baseK 10 (1/2) false stateB).2 ∧
    ((1261 : ℤ), (540 : ℤ)).2 =
      (moveStep { baseCfg with wiggle_one_pixel := true } baseK 10 (1/2) false stateB).1.target_y ∧
    ((1261 : ℤ), (540 : ℤ)).1 =
      (moveStep { baseCfg with wiggle_one_pixel := true } baseK 10 (1/2) false stateB).1.target_x + 1 := by
  have hp : ((1261 : ℤ), (540 : ℤ)) ∈
      (moveStep { baseCfg with wiggle_one_pixel := true } baseK 10 (1/2) false stateB).2 := by
    norm_num [moveStep, baseCfg, baseK, stateB, monFHD, axisVel, modifier_is_down,
      pyRound, clamp_target, apply_cursor]
  have h := C10_jitter_x_only.1 { baseCfg with wiggle_one_pixel := true } baseK 10 (1/2)
    false stateB ((1261 : ℤ), (540 : ℤ)) hp
  refine ⟨hp, h.1, ?_⟩
  rw [h.2]
  norm_num [baseCfg, stateB]


/-! ### C9 — exactly-once restore on deactivation -/

theorem handleDown_saved (cfg : Cfg) (K : Consts) (now : ℚ) (mr : Bool) (cursor : ℤ × ℤ)
    (s : LoopState) (b : ℤ) :
    (handleDown cfg K now mr cursor s b).1.saved_cursor = s.saved_cursor ∨
    (s.active = false ∧ (handleDown cfg K now mr cursor s b).1.active = true ∧
     (handleDown cfg K now mr cursor s b).1.saved_cursor = some cursor) := by
  unfold handleDown
  by_cases h1 : (b = cfg.button_toggle ∧
      (cfg.toggle_req_mod = false ∨ modifier_is_down cfg mr = true) ∧
      debounce_s ≤ now - s.last_toggle)
  · rw [if_pos h1]
    dsimp only
    by_cases ha : s.active = true
    · rw [if_pos ha]
      left
      exact (toggle_off_preserves cfg now s).1
    · have ha' : s.active = false := by revert ha; cases s.active <;> simp
      rw [if_neg ha, toggle_on_eq cfg K now cursor s ha']
      right
      exact ⟨ha', rfl, rfl⟩
  · rw [if_neg h1]
    by_cases h2 : (cfg.button_off = some b ∧
        (cfg.off_req_mod = false ∨ modifier_is_down cfg mr = true) ∧
        debounce_s ≤ now - s.last_toggle)
    · rw [if_pos h2]
      dsimp only
      left
      exact (toggle_off_preserves cfg now s).1
    · rw [if_neg h2]
      by_cases h3 : cfg.incx = some b
      · rw [if_pos h3]; left; rfl
      · rw [if_neg h3]
        by_cases h4 : cfg.decx = some b
        · rw [if_pos h4]; left; rfl
        · rw [if_neg h4]
          by_cases h5 : cfg.incy = some b
          · rw [if_pos h5]; left; rfl
          · rw [if_neg h5]
            by_cases h6 : cfg.decy = some b
            · rw [if_pos h6]; left; rfl
            · rw [if_neg h6]; left; rfl

theorem microStep_saved (cfg : Cfg) (K : Consts) (m : MicroStep) (s : LoopState) :
    (microStep cfg K m s).1.saved_cursor = s.saved_cursor ∨
    (s.active = false ∧ (microStep cfg K m s).1.active = true ∧
     (microStep cfg K m s).1.saved_cursor = stepCursor m) := by
  cases m with
  | ev now mr cursor e =>
      simp only [microStep, stepCursor]
      cases e with
      | down dev b =>
          unfold processEvent
          dsimp only
          split
          · left; rfl
          · split
            · exact handleDown_saved cfg K now mr cursor s b
            · left; rfl
      | up dev b =>
          unfold processEvent
          dsimp only
          split
          · left; rfl
          · split
            · left; exact (handleUp_preserves cfg s b).2.1
            · left; rfl
      | removed iid =>
          unfold processEvent
          dsimp only
          split
          · left; rfl
          · split
            · left; rfl
            · left; rfl
  | move now dt mr =>
      left
      exact moveStep_saved cfg K now dt mr s
  | reapply now =>
      left
      exact (reapplyStep_active cfg K now s).2.1

/-- Claim C9: on an Active-to-Inactive transition with restore configured,
`toggle_off` injects exactly one cursor move, to the saved cursor; with
restore not configured it injects nothing; the saved cursor is the live
cursor captured by `toggle_on` at activation, and no step other than an
Inactive-to-Active transition ever writes `saved_cursor`, so the restored
point is the one captured at the most recent activation. -/
theorem C9_restore_on_deactivate :
    (∀ (cfg : Cfg) (now : ℚ) (s : LoopState) (p : ℤ × ℤ),
        s.active = true → cfg.restore_on_off = true → s.saved_cursor = some p →
        toggle_off cfg now s =
          ({ s with active := false, last_apply := now, wiggle_flip := false }, [p])) ∧
    (∀ (cfg : Cfg) (now : ℚ) (s : LoopState),
        s.active = true → cfg.restore_on_off = false →
        (toggle_off cfg now s).2 = []) ∧
    (∀ (cfg : Cfg) (K : Consts) (now : ℚ) (cursor : ℤ × ℤ) (s : LoopState),
        s.active = false →
        (toggle_on cfg K now cursor s).1.saved_cursor = some cursor) ∧
    (∀ (cfg : Cfg) (K : Consts) (m : MicroStep) (s : LoopState),
        (microStep cfg K m s).1.saved_cursor = s.saved_cursor ∨
        (s.active = false ∧ (microStep cfg K m s).1.active = true ∧
         (microStep cfg K m s).1.saved_cursor = stepCursor m)) := by
  refine ⟨?_, ?_, ?_, ?_⟩
  · intro cfg now s p hact hres hsaved
    simp [toggle_off, hact, hres, hsaved]
  · intro cfg now s hact hres
    simp [toggle_off, hact, hres]
  · intro cfg K now cursor s hact
    rw [toggle_on_eq cfg K now cursor s hact]
  · intro cfg K m s
    exact microStep_saved cfg K m s

/-- Witness for C9: Scenario D.  From the active state `stateB` whose saved
cursor is `(100, 100)`, with restore-on-deactivate configured,
`toggle_off` at time 12 deactivates and injects exactly one move,
to `(100, 100)`. -/
theorem C9_restore_on_deactivate_witness :
    toggle_off { baseCfg with restore_on_off := true } 12 stateB =
      ({ stateB with active := false, last_apply := 12, wiggle_flip := false },
       [((100 : ℤ), (100 : ℤ))]) :=
  C9_restore_on_deactivate.1 { baseCfg with restore_on_off := true } 12 stateB
    ((100 : ℤ), (100 : ℤ)) rfl rfl rfl

/-! ### C1 — recenter on every Inactive-to-Active transition -/

theorem scanl_head {α β : Type} (f : α → β → α) (s0 : α) (l : List β) :
    (List.scanl f s0 l).head? = some s0 := by
  cases l <;> rfl

theorem chain'_scanl {α β : Type} (R : α → α → Prop) (f : α → β → α)
    (hf : ∀ s b, R s (f s b)) (l : List β) :
    ∀ s0 : α, List.Chain' R (List.scanl f s0 l) := by
  induction l with
  | nil =>
      intro s0
      simp
  | cons b l ih =>
      intro s0
      rw [List.scanl_cons, List.singleton_append, List.chain'_cons']
      refine ⟨fun y hy => ?_, ih (f s0 b)⟩
      rw [scanl_head] at hy
      obtain rfl : f s0 b = y := by simpa using hy
      exact hf s0 b

theorem handleDown_activation (cfg : Cfg) (K : Consts) (now : ℚ) (mr : Bool)
    (cursor : ℤ × ℤ) (s : LoopState) (b : ℤ) (h0 : s.active = false)
    (h1 : (handleDown cfg K now mr cursor s b).1.active = true) :
    (handleDown cfg K now mr cursor s b).1.target_x = K.base_x ∧
    (handleDown cfg K now mr cursor s b).1.target_y = K.base_y := by
  unfold handleDown at h1 ⊢
  by_cases hc1 : (b = cfg.button_toggle ∧
      (cfg.toggle_req_mod = false ∨ modifier_is_down cfg mr = true) ∧
      debounce_s ≤ now - s.last_toggle)
  · rw [if_pos hc1] at h1 ⊢
    dsimp only at h1 ⊢
    have ha : ¬ s.active = true := by rw [h0]; simp
    rw [if_neg ha] at h1 ⊢
    rw [toggle_on_eq cfg K now cursor s h0]
    exact ⟨rfl, rfl⟩
  · rw [if_neg hc1] at h1 ⊢
    by_cases hc2 : (cfg.button_off = some b ∧
        (cfg.off_req_mod = false ∨ modifier_is_down cfg mr = true) ∧
        debounce_s ≤ now - s.last_toggle)
    · rw [if_pos hc2] at h1
      dsimp only at h1
      rw [toggle_off_active cfg now s] at h1
      exact absurd h1 (by simp)
    · rw [if_neg hc2] at h1
      by_cases h3 : cfg.incx = some b
      · rw [if_pos h3] at h1
        rw [h0] at h1
        exact absurd h1 (by simp)
      · rw [if_neg h3] at h1
        by_cases h4 : cfg.decx = some b
        · rw [if_pos h4] at h1
          rw [h0] at h1
          exact absurd h1 (by simp)
        · rw [if_neg h4] at h1
          by_cases h5 : cfg.incy = some b
          · rw [if_pos h5] at h1
            rw [h0] at h1
            exact absurd h1 (by simp)
          · rw [if_neg h5] at h1
            by_cases h6 : cfg.decy = some b
            · rw [if_pos h6] at h1
              rw [h0] at h1
              exact absurd h1 (by simp)
            · rw [if_neg h6] at h1
              rw [h0] at h1
              exact absurd h1 (by simp)

theorem microStep_activation (cfg : Cfg) (K : Consts) (m : MicroStep) (s : LoopState)
    (h0 : s.active = false) (h1 : (microStep cfg K m s).1.active = true) :
    (microStep cfg K m s).1.target_x = K.base_x ∧
    (microStep cfg K m s).1.target_y = K.base_y := by
  cases m with
  | ev now mr cursor e =>
      simp only [microStep] at h1 ⊢
      cases e with
      | down dev b =>
          unfold processEvent at h1 ⊢
          dsimp only at h1 ⊢
          by_cases hg : now < K.grace_until
          · rw [if_pos hg] at h1
            rw [h0] at h1
            exact absurd h1 (by simp)
          · rw [if_neg hg] at h1 ⊢
            by_cases hdev : dev = K.instance_id
            · rw [if_pos hdev] at h1 ⊢
              exact handleDown_activation cfg K now mr cursor s b h0 h1
            · rw [if_neg hdev] at h1
              rw [h0] at h1
              exact absurd h1 (by simp)
      | up dev b =>
          unfold processEvent at h1
          dsimp only at h1
          split at h1
          · rw [h0] at h1
            exact absurd h1 (by simp)
          · split at h1
            · rw [(handleUp_preserves cfg s b).1, h0] at h1
              exact absurd h1 (by simp)
            · rw [h0] at h1
              exact absurd h1 (by simp)
      | removed iid =>
          unfold processEvent at h1
          dsimp only at h1
          split at h1
          · rw [h0] at h1
            exact absurd h1 (by simp)
          · split at h1
            · rw [h0] at h1
              exact absurd h1 (by simp)
            · rw [h0] at h1
              exact absurd h1 (by simp)
  | move now dt mr =>
      simp only [microStep] at h1
      rw [moveStep_active cfg K now dt mr s, h0] at h1
      exact absurd h1 (by simp)
  | reapply now =>
      simp only [microStep] at h1
      rw [(reapplyStep_active cfg K now s).1, h0] at h1
      exact absurd h1 (by simp)

/-- Claim C1: along every execution of the loop — every trajectory of atomic
steps from any state — whenever a step makes an Inactive-to-Active
transition, the state immediately after it has the current target equal to
the base target exactly, regardless of the preceding holds, nudges and
toggles; equivalently, as a per-step fact, any step that flips `active`
from false to true leaves `target_x = base_x` and `target_y = base_y`. -/
theorem C1_recenter_invariant :
    (∀ (cfg : Cfg) (K : Consts) (s0 : LoopState) (steps : List MicroStep),
        List.Chain'
          (fun s s' => s.active = false → s'.active = true →
            s'.target_x = K.base_x ∧ s'.target_y = K.base_y)
          (runStates cfg K s0 steps)) ∧
    (∀ (cfg : Cfg) (K : Consts) (m : MicroStep) (s : LoopState),
        s.active = false → (microStep cfg K m s).1.active = true →
        (microStep cfg K m s).1.target_x = K.base_x ∧
        (microStep cfg K m s).1.target_y = K.base_y) := by
  constructor
  · intro cfg K s0 steps
    unfold runStates
    exact chain'_scanl _ _
      (fun s m h0 h1 => microStep_activation cfg K m s h0 h1) steps s0
  · intro cfg K m s h0 h1
    exact microStep_activation cfg K m s h0 h1

/-- Witness for C1: from a concrete inactive state parked away from base at
`(555, 666)`, a qualifying toggle press at time 1 activates, and the
theorem yields that the state immediately after has target exactly
`(960, 540) = BaseTarget`. -/
theorem C1_recenter_invariant_witness :
    ({ active := false, saved_cursor := none, target_x := 555, target_y := 666,
       wiggle_flip := false, last_apply := 0, last_toggle := 0,
       hold_inc_x := false, hold_dec_x := false, hold_inc_y := false,
       hold_dec_y := false } : LoopState).active = false ∧
    (microStep baseCfg baseK (.ev 1 false (100, 100) (.down 7 0))
      { active := false, saved_cursor := none, target_x := 555, target_y := 666,
        wiggle_flip := false, last_apply := 0, last_toggle := 0,
        hold_inc_x := false, hold_dec_x := false, hold_inc_y := false,
        hold_dec_y := false }).1.active = true ∧
    (microStep baseCfg baseK (.ev 1 false (100, 100) (.down 7 0))
      { active := false, saved_cursor := none, target_x := 555, target_y := 666,
        wiggle_flip := false, last_apply := 0, last_toggle := 0,
        hold_inc_x := false, hold_dec_x := false, hold_inc_y := false,
        hold_dec_y := false }).1.target_x = baseK.base_x ∧
    (microStep baseCfg baseK (.ev 1 false (100, 100) (.down 7 0))
      { active := false, saved_cursor := none, target_x := 555, target_y := 666,
        wiggle_flip := false, last_apply := 0, last_toggle := 0,
        hold_inc_x := false, hold_dec_x := false, hold_inc_y := false,
        hold_dec_y := false }).1.active = true := by
  have hact : (microStep baseCfg baseK (.ev 1 false (100, 100) (.down 7 0))
      { active := false, saved_cursor := none, target_x := 555, target_y := 666,
        wiggle_flip := false, last_apply := 0, last_toggle := 0,
        hold_inc_x := false, hold_dec_x := false, hold_inc_y := false,
        hold_dec_y := false }).1.active = true := by
    norm_num [microStep, processEvent, handleDown, toggle_on, toggle_off, apply_cursor,
      baseCfg, baseK, monFHD, debounce_s, modifier_is_down]
  exact ⟨rfl, hact,
    (C1_recenter_invariant.2 baseCfg baseK (.ev 1 false (100, 100) (.down 7 0))
      _ rfl hact).1, hact⟩

/-! ### C2 — per-tick velocity integration -/

/-- Claim C2: on every tick the delta applied to each axis of the current
target is exactly `pyRound(axis_velocity * nudge_velocity * dt)` with the
axis velocity recomputed per axis from the hold flags and the live
modifier gate, and the elapsed wall-clock time `dt`; the moved point is
then clamped, and when both rounded deltas are zero the target is
untouched.  In particular (Scenario B) holding inc-x for 0.5 s at
600 px/s from `(960, 540)` gives `x = 960 + 300 = 1260`, and
(Scenario C) holding inc-x and dec-x together leaves the state
completely unchanged. -/
theorem C2_velocity_integration :
    (∀ (cfg : Cfg) (K : Consts) (now dt : ℚ) (mr : Bool) (s : LoopState),
        ((moveStep cfg K now dt mr s).1.target_x,
         (moveStep cfg K now dt mr s).1.target_y) =
          if pyRound ((axisVel s.hold_inc_x cfg.incx_req_mod s.hold_dec_x cfg.decx_req_mod
                  (modifier_is_down cfg mr) : ℚ) * (cfg.nudge_velocity : ℚ) * dt) = 0 ∧
             pyRound ((axisVel s.hold_inc_y cfg.incy_req_mod s.hold_dec_y cfg.decy_req_mod
                  (modifier_is_down cfg mr) : ℚ) * (cfg.nudge_velocity : ℚ) * dt) = 0 then
            (s.target_x, s.target_y)
          else
            clamp_target
              (s.target_x + pyRound ((axisVel s.hold_inc_x cfg.incx_req_mod s.hold_dec_x
                  cfg.decx_req_mod (modifier_is_down cfg mr) : ℚ) *
                  (cfg.nudge_velocity : ℚ) * dt))
              (s.target_y + pyRound ((axisVel s.hold_inc_y cfg.incy_req_mod s.hold_dec_y
                  cfg.decy_req_mod (modifier_is_down cfg mr) : ℚ) *
                  (cfg.nudge_velocity : ℚ) * dt))
              K.mon cfg.clamp_virtual K.vrect) ∧
    (moveStep baseCfg baseK 10 (1/2) false stateB).1.target_x = 1260 ∧
    (moveStep baseCfg baseK 10 (1/2) false stateB).1.target_y = 540 ∧
    (moveStep baseCfg baseK 10 (1/2) false { stateB with hold_dec_x := true }).1 =
      { stateB with hold_dec_x := true } := by
  refine ⟨?_, ?_, ?_, ?_⟩
  · intro cfg K now dt mr s
    unfold moveStep
    dsimp only
    by_cases hv : (axisVel s.hold_inc_x cfg.incx_req_mod s.hold_dec_x cfg.decx_req_mod
          (modifier_is_down cfg mr) ≠ 0 ∨
        axisVel s.hold_inc_y cfg.incy_req_mod s.hold_dec_y cfg.decy_req_mod
          (modifier_is_down cfg mr) ≠ 0)
    · rw [if_pos hv]
      by_cases hs : (pyRound ((axisVel s.hold_inc_x cfg.incx_req_mod s.hold_dec_x
            cfg.decx_req_mod (modifier_is_down cfg mr) : ℚ) *
            (cfg.nudge_velocity : ℚ) * dt) ≠ 0 ∨
          pyRound ((axisVel s.hold_inc_y cfg.incy_req_mod s.hold_dec_y
            cfg.decy_req_mod (modifier_is_down cfg mr) : ℚ) *
            (cfg.nudge_velocity : ℚ) * dt) ≠ 0)
      · have hne : ¬ (pyRound ((axisVel s.hold_inc_x cfg.incx_req_mod s.hold_dec_x
              cfg.decx_req_mod (modifier_is_down cfg mr) : ℚ) *
              (cfg.nudge_velocity : ℚ) * dt) = 0 ∧
            pyRound ((axisVel s.hold_inc_y cfg.incy_req_mod s.hold_dec_y
              cfg.decy_req_mod (modifier_is_down cfg mr) : ℚ) *
              (cfg.nudge_velocity : ℚ) * dt) = 0) := by
          intro hboth
          rcases hs with h | h
          · exact h hboth.1
          · exact h hboth.2
        rw [if_pos hs, if_neg hne]
        split
        · exact Prod.ext_iff.mpr ⟨rfl, rfl⟩
        · exact Prod.ext_iff.mpr ⟨rfl, rfl⟩
      · rw [if_neg hs]
        push_neg at hs
        rw [if_pos hs]
    · rw [if_neg hv]
      push_neg at hv
      have hx0 : pyRound ((axisVel s.hold_inc_x cfg.incx_req_mod s.hold_dec_x
          cfg.decx_req_mod (modifier_is_down cfg mr) : ℚ) *
          (cfg.nudge_velocity : ℚ) * dt) = 0 := by
        rw [hv.1]
        push_cast
        rw [zero_mul, zero_mul]
        exact pyRound_zero
      have hy0 : pyRound ((axisVel s.hold_inc_y cfg.incy_req_mod s.hold_dec_y
          cfg.decy_req_mod (modifier_is_down cfg mr) : ℚ) *
          (cfg.nudge_velocity : ℚ) * dt) = 0 := by
        rw [hv.2]
        push_cast
        rw [zero_mul, zero_mul]
        exact pyRound_zero
      rw [if_pos ⟨hx0, hy0⟩]
  · norm_num [moveStep, axisVel, modifier_is_down, pyRound, clamp_target, apply_cursor,
      baseCfg, baseK, stateB, monFHD]
  · norm_num [moveStep, axisVel, modifier_is_down, pyRound, clamp_target, apply_cursor,
      baseCfg, baseK, stateB, monFHD]
  · norm_num [moveStep, axisVel, modifier_is_down, baseCfg, stateB]

/-! ### C4 — debounce of toggle presses -/

theorem processEvent_toggle_accepted (cfg : Cfg) (K : Consts) (now : ℚ) (mr : Bool)
    (cursor : ℤ × ℤ) (s : LoopState)
    (hg : ¬ now < K.grace_until)
    (hgate : cfg.toggle_req_mod = false ∨ modifier_is_down cfg mr = true)
    (hdeb : debounce_s ≤ now - s.last_toggle)
    (h0 : s.active = false) :
    processEvent cfg K now mr cursor s (.down K.instance_id cfg.button_toggle) =
      ({ s with saved_cursor := some cursor, target_x := K.base_x, target_y := K.base_y,
                active := true, last_apply := now, wiggle_flip := !s.wiggle_flip,
                last_toggle := now },
       [(K.base_x + (if cfg.wiggle_one_pixel = true ∧ s.wiggle_flip = true then 1 else 0),
         K.base_y)],
       false) := by
  unfold processEvent
  rw [if_neg hg]
  dsimp only
  rw [if_pos rfl, handleDown]
  rw [if_pos ⟨rfl, hgate, hdeb⟩]
  dsimp only
  have ha : ¬ s.active = true := by rw [h0]; simp
  rw [if_neg ha, toggle_on_eq cfg K now cursor s h0]

theorem processEvent_down_debounced (cfg : Cfg) (K : Consts) (now : ℚ) (mr : Bool)
    (cursor : ℤ × ℤ) (s : LoopState) (dev : ℕ) (b : ℤ)
    (hg : ¬ now < K.grace_until)
    (hdeb : ¬ debounce_s ≤ now - s.last_toggle) :
    (processEvent cfg K now mr cursor s (.down dev b)).1.active = s.active ∧
    (processEvent cfg K now mr cursor s (.down dev b)).1.last_toggle = s.last_toggle ∧
    (processEvent cfg K now mr cursor s (.down dev b)).1.target_x = s.target_x ∧
    (processEvent cfg K now mr cursor s (.down dev b)).1.target_y = s.target_y ∧
    (processEvent cfg K now mr cursor s (.down dev b)).1.saved_cursor = s.saved_cursor ∧
    (processEvent cfg K now mr cursor s (.down dev b)).1.wiggle_flip = s.wiggle_flip ∧
    (processEvent cfg K now mr cursor s (.down dev b)).1.last_apply = s.last_apply ∧
    (processEvent cfg K now mr cursor s (.down dev b)).2.1 = [] ∧
    (processEvent cfg K now mr cursor s (.down dev b)).2.2 = false := by
  unfold processEvent
  rw [if_neg hg]
  dsimp only
  by_cases hdev : dev = K.instance_id
  · rw [if_pos hdev, handleDown]
    have hc1 : ¬ (b = cfg.button_toggle ∧
        (cfg.toggle_req_mod = false ∨ modifier_is_down cfg mr = true) ∧
        debounce_s ≤ now - s.last_toggle) := by
      intro h
      exact hdeb h.2.2
    have hc2 : ¬ (cfg.button_off = some b ∧
        (cfg.off_req_mod = false ∨ modifier_is_down cfg mr = true) ∧
        debounce_s ≤ now - s.last_toggle) := by
      intro h
      exact hdeb h.2.2
    rw [if_neg hc1, if_neg hc2]
    by_cases h3 : cfg.incx = some b
    · rw [if_pos h3]
      exact ⟨rfl, rfl, rfl, rfl, rfl, rfl, rfl, rfl, rfl⟩
    · rw [if_neg h3]
      by_cases h4 : cfg.decx = some b
      · rw [if_pos h4]
        exact ⟨rfl, rfl, rfl, rfl, rfl, rfl, rfl, rfl, rfl⟩
      · rw [if_neg h4]
        by_cases h5 : cfg.incy = some b
        · rw [if_pos h5]
          exact ⟨rfl, rfl, rfl, rfl, rfl, rfl, rfl, rfl, rfl⟩
        · rw [if_neg h5]
          by_cases h6 : cfg.decy = some b
          · rw [if_pos h6]
            exact ⟨rfl, rfl, rfl, rfl, rfl, rfl, rfl, rfl, rfl⟩
          · rw [if_neg h6]
            exact ⟨rfl, rfl, rfl, rfl, rfl, rfl, rfl, rfl, rfl⟩
  · rw [if_neg hdev]
    exact ⟨rfl, rfl, rfl, rfl, rfl, rfl, rfl, rfl, rfl⟩

/-- Claim C4: two qualifying toggle presses separated by less than the
debounce window (`debounce_s = 0.15 s`), the first of which arrives with
the debounce clock expired, produce exactly one toggle transition: the
first press activates and stamps the debounce clock, and the second press
leaves the toggle state, the debounce clock, the target, the saved cursor,
the jitter flip-flop and the apply clock all unchanged, so the state
remains Active. -/
theorem C4_debounce (cfg : Cfg) (K : Consts) (s : LoopState) (t1 t2 : ℚ) (m1 m2 : Bool)
    (c1 c2 : ℤ × ℤ)
    (h0 : s.active = false)
    (hg1 : ¬ t1 < K.grace_until) (hg2 : ¬ t2 < K.grace_until)
    (hdeb : debounce_s ≤ t1 - s.last_toggle)
    (hgate1 : cfg.toggle_req_mod = false ∨ modifier_is_down cfg m1 = true)
    (hclose : t2 - t1 < debounce_s) :
    (processEvent cfg K t1 m1 c1 s (.down K.instance_id cfg.button_toggle)).1.active = true ∧
    (processEvent cfg K t1 m1 c1 s (.down K.instance_id cfg.button_toggle)).1.last_toggle = t1 ∧
    ((processEvent cfg K t2 m2 c2
        (processEvent cfg K t1 m1 c1 s (.down K.instance_id cfg.button_toggle)).1
        (.down K.instance_id cfg.button_toggle)).1.active = true ∧
     (processEvent cfg K t2 m2 c2
        (processEvent cfg K t1 m1 c1 s (.down K.instance_id cfg.button_toggle)).1
        (.down K.instance_id cfg.button_toggle)).1.last_toggle = t1 ∧
     (processEvent cfg K t2 m2 c2
        (processEvent cfg K t1 m1 c1 s (.down K.instance_id cfg.button_toggle)).1
        (.down K.instance_id cfg.button_toggle)).1.target_x =
       (processEvent cfg K t1 m1 c1 s (.down K.instance_id cfg.button_toggle)).1.target_x ∧
     (processEvent cfg K t2 m2 c2
        (processEvent cfg K t1 m1 c1 s (.down K.instance_id cfg.button_toggle)).1
        (.down K.instance_id cfg.button_toggle)).1.target_y =
       (processEvent cfg K t1 m1 c1 s (.down K.instance_id cfg.button_toggle)).1.target_y ∧
     (processEvent cfg K t2 m2 c2
        (processEvent cfg K t1 m1 c1 s (.down K.instance_id cfg.button_toggle)).1
        (.down K.instance_id cfg.button_toggle)).1.saved_cursor =
       (processEvent cfg K t1 m1 c1 s (.down K.instance_id cfg.button_toggle)).1.saved_cursor ∧
     (processEvent cfg K t2 m2 c2
        (processEvent cfg K t1 m1 c1 s (.down K.instance_id cfg.button_toggle)).1
        (.down K.instance_id cfg.button_toggle)).2.1 = []) := by
  have e1 := processEvent_toggle_accepted cfg K t1 m1 c1 s hg1 hgate1 hdeb h0
  have hlt1 : (processEvent cfg K t1 m1 c1 s
      (.down K.instance_id cfg.button_toggle)).1.last_toggle = t1 := by
    rw [e1]
  have hdeb2 : ¬ debounce_s ≤ t2 -
      (processEvent cfg K t1 m1 c1 s (.down K.instance_id cfg.button_toggle)).1.last_toggle := by
    rw [hlt1]
    intro h
    exact absurd hclose (not_lt.mpr h)
  have e2 := processEvent_down_debounced cfg K t2 m2 c2
    (processEvent cfg K t1 m1 c1 s (.down K.instance_id cfg.button_toggle)).1
    K.instance_id cfg.button_toggle hg2 hdeb2
  refine ⟨by rw [e1], hlt1, ?_, ?_, e2.2.2.1, e2.2.2.2.1, e2.2.2.2.2.1, e2.2.2.2.2.2.2.2.1⟩
  · rw [e2.1, e1]
  · rw [e2.2.1, hlt1]

/-- Witness for C4: Scenario E with concrete data.  From the inactive start
state (debounce clock at 0), a toggle press at `t1 = 1` activates; a second
toggle press 50 ms later at `t2 = 21/20` is ignored: the state stays
Active with the debounce clock still at 1. -/
theorem C4_debounce_witness :
    (initState baseK 0).active = false ∧
    ¬ (1 : ℚ) < baseK.grace_until ∧ ¬ (21/20 : ℚ) < baseK.grace_until ∧
    debounce_s ≤ (1 : ℚ) - (initState baseK 0).last_toggle ∧
    (baseCfg.toggle_req_mod = false ∨ modifier_is_down baseCfg false = true) ∧
    (21/20 : ℚ) - 1 < debounce_s ∧
    (processEvent baseCfg baseK 1 false (100, 100) (initState baseK 0)
      (.down baseK.instance_id baseCfg.button_toggle)).1.active = true ∧
    (processEvent baseCfg baseK (21/20) false (100, 100)
      (processEvent baseCfg baseK 1 false (100, 100) (initState baseK 0)
        (.down baseK.instance_id baseCfg.button_toggle)).1
      (.down baseK.instance_id baseCfg.button_toggle)).1.active = true := by
  have h0 : (initState baseK 0).active = false := rfl
  have hg1 : ¬ (1 : ℚ) < baseK.grace_until := by norm_num [baseK]
  have hg2 : ¬ (21/20 : ℚ) < baseK.grace_until := by norm_num [baseK]
  have hdeb : debounce_s ≤ (1 : ℚ) - (initState baseK 0).last_toggle := by
    norm_num [debounce_s, initState]
  have hgate : (baseCfg.toggle_req_mod = false ∨ modifier_is_down baseCfg false = true) :=
    Or.inl rfl
  have hclose : (21/20 : ℚ) - 1 < debounce_s := by norm_num [debounce_s]
  have h := C4_debounce baseCfg baseK (initState baseK 0) 1 (21/20) false false
    (100, 100) (100, 100) h0 hg1 hg2 hdeb hgate hclose
  exact ⟨h0, hg1, hg2, hdeb, hgate, hclose, h.1, h.2.2.1⟩

/-! ### C6 — ForceOff press while Inactive -/

/-- Claim C6 (counterexample): the claim asserts the debounce clock is not
reset by a ForceOff press received while Inactive.  Concretely, from the
startup state (debounce clock 0), a qualifying off press (button 3) at
time 1 leaves the state Inactive but sets the debounce clock to 1, and a
toggle press 100 ms later at time `11/10` is consequently ignored
(state stays Inactive), whereas the same toggle press from the original
state would have activated. -/
theorem C6_force_off_cex :
    (processEvent baseCfg baseK 1 false (0, 0) (initState baseK 0)
        (.down 7 3)).1.active = false ∧
    (processEvent baseCfg baseK 1 false (0, 0) (initState baseK 0)
        (.down 7 3)).1.last_toggle = 1 ∧
    (initState baseK 0).last_toggle = 0 ∧
    (processEvent baseCfg baseK (11/10) false (0, 0)
        (processEvent baseCfg baseK 1 false (0, 0) (initState baseK 0) (.down 7 3)).1
        (.down 7 0)).1.active = false ∧
    (processEvent baseCfg baseK (11/10) false (0, 0) (initState baseK 0)
        (.down 7 0)).1.active = true := by
  refine ⟨?_, ?_, rfl, ?_, ?_⟩ <;>
    norm_num [processEvent, handleDown, toggle_off, toggle_on, apply_cursor,
      modifier_is_down, debounce_s, baseCfg, baseK, initState, monFHD]

/-- Claim C6 (amended): a qualifying ForceOff press received while
ToggleState is Inactive leaves the toggle state Inactive and the target,
saved cursor, hold flags, jitter flip-flop and apply clock unchanged,
injects no cursor move and does not terminate the loop; however, when the
press itself passes the shared debounce check, the debounce clock
(`last_toggle`) is reset to the press time, so it can delay a subsequent
toggle press by up to the debounce window. -/
theorem C6_force_off_amended (cfg : Cfg) (K : Consts) (now : ℚ) (mr : Bool)
    (cursor : ℤ × ℤ) (s : LoopState) (b : ℤ)
    (h0 : s.active = false)
    (hg : ¬ now < K.grace_until)
    (hoff : cfg.button_off = some b)
    (hnott : ¬ b = cfg.button_toggle)
    (hgate : cfg.off_req_mod = false ∨ modifier_is_down cfg mr = true)
    (hdeb : debounce_s ≤ now - s.last_toggle) :
    processEvent cfg K now mr cursor s (.down K.instance_id b) =
      ({ s with last_toggle := now }, [], false) := by
  unfold processEvent
  rw [if_neg hg]
  dsimp only
  rw [if_pos rfl, handleDown]
  have hc1 : ¬ (b = cfg.button_toggle ∧
      (cfg.toggle_req_mod = false ∨ modifier_is_down cfg mr = true) ∧
      debounce_s ≤ now - s.last_toggle) := fun h => hnott h.1
  rw [if_neg hc1, if_pos ⟨hoff, hgate, hdeb⟩]
  dsimp only
  rw [toggle_off_inactive cfg now s h0]

/-- Witness for C6 (amended): the concrete off press of `C6_force_off_cex`
— button 3 at time 1 from the startup state — produces exactly the
startup state with the debounce clock moved to 1, no injection, no
termination. -/
theorem C6_force_off_amended_witness :
    processEvent baseCfg baseK 1 false (0, 0) (initState baseK 0)
        (.down baseK.instance_id 3) =
      ({ initState baseK 0 with last_toggle := 1 }, [], false) :=
  C6_force_off_amended baseCfg baseK 1 false (0, 0) (initState baseK 0) 3
    rfl (by norm_num [baseK]) rfl (by norm_num [baseCfg]) (Or.inl rfl)
    (by norm_num [debounce_s, initState])

/-! ### C7 — device removal terminates the loop -/

/-- Claim C7 (counterexample): the claim asserts a primary-device removal
notification terminates the loop even during the startup grace period.
Concretely, a removal of primary device 7 drained at time `1/10`
(inside the 200 ms grace window) is discarded: the tick reports the loop
not terminated and the state unchanged — and on a later tick a toggle
press activates and a cursor assertion is performed, so cursor assertions
continue after the removal notification. -/
theorem C7_removal_cex :
    (tick baseCfg baseK (1/10) (1/10) [⟨false, (0, 0), .removed (some 7)⟩] false
        (initState baseK 0)).2.2 = false ∧
    (tick baseCfg baseK (1/10) (1/10) [⟨false, (0, 0), .removed (some 7)⟩] false
        (initState baseK 0)).1 = initState baseK 0 ∧
    (tick baseCfg baseK 1 (9/10) [⟨false, (100, 100), .down 7 0⟩] false
        (tick baseCfg baseK (1/10) (1/10) [⟨false, (0, 0), .removed (some 7)⟩] false
          (initState baseK 0)).1).2.1 = [(960, 540)] := by
  refine ⟨?_, ?_, ?_⟩ <;>
    norm_num [tick, drainEvents, processEvent, handleDown, toggle_on, toggle_off,
      apply_cursor, moveStep, reapplyStep, axisVel, modifier_is_down, pyRound,
      clamp_target, debounce_s, baseCfg, baseK, initState, monFHD]

/-- Claim C7 (amended): a primary-device removal notification drained at or
after the grace deadline terminates the loop with no injection and no
state change; when the drain terminates the loop, the remaining events of
the tick are not processed and the hold-movement and re-apply phases are
skipped, so no further cursor assertion occurs; but a removal notification
drained while the startup grace period is still in effect is discarded
like any other event, and the loop continues. -/
theorem C7_removal_amended :
    (∀ (cfg : Cfg) (K : Consts) (now : ℚ) (mr : Bool) (cursor : ℤ × ℤ) (s : LoopState),
        ¬ now < K.grace_until →
        processEvent cfg K now mr cursor s (.removed (some K.instance_id)) =
          (s, [], true)) ∧
    (∀ (cfg : Cfg) (K : Consts) (now : ℚ) (c : EvCtx) (rest : List EvCtx) (s : LoopState),
        (processEvent cfg K now c.mod_raw c.cursor s c.ev).2.2 = true →
        drainEvents cfg K now (c :: rest) s =
          ((processEvent cfg K now c.mod_raw c.cursor s c.ev).1,
           (processEvent cfg K now c.mod_raw c.cursor s c.ev).2.1, true)) ∧
    (∀ (cfg : Cfg) (K : Consts) (now dt : ℚ) (ctxs : List EvCtx) (mt : Bool) (s : LoopState),
        (drainEvents cfg K now ctxs s).2.2 = true →
        tick cfg K now dt ctxs mt s = drainEvents cfg K now ctxs s) ∧
    (∀ (cfg : Cfg) (K : Consts) (now : ℚ) (mr : Bool) (cursor : ℤ × ℤ) (s : LoopState)
        (iid : Option ℕ),
        now < K.grace_until →
        processEvent cfg K now mr cursor s (.removed iid) = (s, [], false)) := by
  refine ⟨?_, ?_, ?_, ?_⟩
  · intro cfg K now mr cursor s hg
    unfold processEvent
    rw [if_neg hg]
    dsimp only
    rw [if_pos rfl]
  · intro cfg K now c rest s hq
    unfold drainEvents
    dsimp only
    rw [if_pos hq]
  · intro cfg K now dt ctxs mt s hq
    unfold tick
    dsimp only
    rw [if_pos hq]
  · intro cfg K now mr cursor s iid hg
    unfold processEvent
    rw [if_pos hg]

/-- Witness for C7 (amended): removal of primary device 7 drained at
time 1 (past the grace deadline `1/5`) terminates the loop with the state
untouched; the same notification drained at time `1/10` (inside grace) is
discarded and the loop continues. -/
theorem C7_removal_amended_witness :
    processEvent baseCfg baseK 1 false (0, 0) (initState baseK 0)
        (.removed (some baseK.instance_id)) = (initState baseK 0, [], true) ∧
    processEvent baseCfg baseK (1/10) false (0, 0) (initState baseK 0)
        (.removed (some 7)) = (initState baseK 0, [], false) :=
  ⟨C7_removal_amended.1 baseCfg baseK 1 false (0, 0) (initState baseK 0)
      (by norm_num [baseK]),
   C7_removal_amended.2.2.2 baseCfg baseK (1/10) false (0, 0) (initState baseK 0)
      (some 7) (by norm_num [baseK])⟩


/-! ### C5 and C8 — configuration validation -/

/-- A concrete well-formed raw `[input]` section matching `baseCfg`:
fractional position `(1/2, 1/2)`, toggle on 0, off on 3. -/
def rawBase : RawInput :=
  { button_toggle := some 0, toggle_req_mod := false, button_off := some 3,
    off_req_mod := false, incx := some 4, incx_req_mod := false,
    decx := some 5, decx_req_mod := false, incy := some 6,
    incy_req_mod := false, decy := some 7, decy_req_mod := false,
    modifier_button := none, monitor_index := 0, x_frac := some (1/2),
    y_frac := some (1/2), x := none, y := none, poll_hz := 250,
    startup_grace_ms := 200, repeat_ms := 1000, nudge_velocity_px_s := 600,
    wiggle_one_pixel := false, clamp_space := "monitor", restore_on_off := false }

/-- Claim C5 (counterexample): the claim asserts validation is fatal when
both the fractional and the pixel position specs are present; but
`load_config` accepts a raw input carrying `x_frac`, `y_frac`, `x` and `y`
all at once and returns a configuration. -/
theorem C5_position_spec_cex :
    ({ rawBase with x := some 10, y := some 10 } : RawInput).x_frac.isSome = true ∧
    ({ rawBase with x := some 10, y := some 10 } : RawInput).y_frac.isSome = true ∧
    ({ rawBase with x := some 10, y := some 10 } : RawInput).x.isSome = true ∧
    ({ rawBase with x := some 10, y := some 10 } : RawInput).y.isSome = true ∧
    ∃ c, load_config { rawBase with x := some 10, y := some 10 } = .ok c :=
  ⟨rfl, rfl, rfl, rfl, ⟨_, rfl⟩⟩

/-- Claim C5 (amended): startup validation is fatal when neither complete
position spec is present (the core then never starts its loop), but a raw
input with both specs present is accepted; in `main`'s base-target
computation the fractional spec then takes precedence over the pixel
spec. -/
theorem C5_position_spec_amended :
    (∀ r : RawInput, (r.x_frac.isSome && r.y_frac.isSome) = false →
        (r.x.isSome && r.y.isSome) = false →
        ∃ msg, load_config r = .error msg) ∧
    (∀ r : RawInput, r.button_toggle.isSome = true →
        (r.x_frac.isSome && r.y_frac.isSome) = true →
        ∃ c, load_config r = .ok c) ∧
    (∀ (cfg : Cfg) (mon vrect : Rect) (fx fy : ℚ),
        cfg.x_frac = some fx → cfg.y_frac = some fy →
        compute_base cfg mon vrect =
          some (clamp_target (pyRound ((mon.x : ℚ) + fx * (mon.w : ℚ)))
                 (pyRound ((mon.y : ℚ) + fy * (mon.h : ℚ))) mon cfg.clamp_virtual vrect)) := by
  refine ⟨?_, ?_, ?_⟩
  · intro r h1 h2
    unfold load_config
    rcases hbt : r.button_toggle with _ | bt
    · exact ⟨_, rfl⟩
    · dsimp only
      rw [if_pos (by rw [h1, h2]; rfl)]
      exact ⟨_, rfl⟩
  · intro r hbt hfrac
    unfold load_config
    rcases hbt' : r.button_toggle with _ | bt
    · rw [hbt'] at hbt
      exact absurd hbt (by simp)
    · dsimp only
      rw [if_neg (by rw [hfrac]; simp)]
      exact ⟨_, rfl⟩
  · intro cfg mon vrect fx fy h1 h2
    simp [compute_base, h1, h2]

/-- Witness for C5 (amended): with both `x_frac`/`y_frac` absent and `x`/`y`
absent, `load_config` fails; on `rawBase` it succeeds; and on a
configuration carrying both specs, `compute_base` uses the fractional
formula. -/
theorem C5_position_spec_amended_witness :
    (∃ msg, load_config { rawBase with x_frac := none, y_frac := none } = .error msg) ∧
    (∃ c, load_config rawBase = .ok c) ∧
    compute_base { baseCfg with x := some 10, y := some 10 } monFHD monFHD =
      some (clamp_target (pyRound ((monFHD.x : ℚ) + (1/2) * (monFHD.w : ℚ)))
             (pyRound ((monFHD.y : ℚ) + (1/2) * (monFHD.h : ℚ))) monFHD
             ({ baseCfg with x := some 10, y := some 10 } : Cfg).clamp_virtual monFHD) :=
  ⟨C5_position_spec_amended.1 { rawBase with x_frac := none, y_frac := none } rfl rfl,
   C5_position_spec_amended.2.1 rawBase rfl rfl,
   C5_position_spec_amended.2.2 { baseCfg with x := some 10, y := some 10 }
     monFHD monFHD (1/2) (1/2) rfl rfl⟩

/-- Claim C8 (counterexample): the claim asserts an ambiguous binding —
two bindings with the same (button index, requires-modifier) tuple — is
detected at startup and fatal.  But a raw input binding both Toggle and
ForceOff to button 0 with the same (absent) modifier requirement is
accepted by `load_config` without complaint. -/
theorem C8_ambiguous_binding_cex :
    ({ rawBase with button_off := some 0 } : RawInput).button_toggle = some 0 ∧
    ({ rawBase with button_off := some 0 } : RawInput).button_off = some 0 ∧
    ({ rawBase with button_off := some 0 } : RawInput).toggle_req_mod =
      ({ rawBase with button_off := some 0 } : RawInput).off_req_mod ∧
    ∃ c, load_config { rawBase with button_off := some 0 } = .ok c :=
  ⟨rfl, rfl, rfl, ⟨_, rfl⟩⟩

/-- Claim C8 (amended): `load_config` performs no ambiguity check at all —
it accepts a raw input exactly when the toggle binding is present and at
least one complete position spec is present, regardless of any bindings
sharing a (button index, requires-modifier) tuple; a press matching
several bindings is resolved at runtime by the fixed dispatch order of the
event handler (Toggle first, then ForceOff, then the directional holds):
with Toggle and ForceOff bound to the same button, a qualifying press from
Inactive activates. -/
theorem C8_ambiguous_binding_amended :
    (∀ r : RawInput, (∃ c, load_config r = .ok c) ↔
        (r.button_toggle.isSome = true ∧
         ((r.x_frac.isSome && r.y_frac.isSome) = true ∨
          (r.x.isSome && r.y.isSome) = true))) ∧
    (∀ (cfg : Cfg) (K : Consts) (now : ℚ) (mr : Bool) (cursor : ℤ × ℤ) (s : LoopState),
        s.active = false → ¬ now < K.grace_until →
        cfg.button_off = some cfg.button_toggle →
        cfg.toggle_req_mod = false →
        debounce_s ≤ now - s.last_toggle →
        (processEvent cfg K now mr cursor s
          (.down K.instance_id cfg.button_toggle)).1.active = true) := by
  constructor
  · intro r
    constructor
    · rintro ⟨c, hc⟩
      rcases hbt : r.button_toggle with _ | bt
      · rw [load_config, hbt] at hc
        exact absurd hc (by simp)
      · refine ⟨by simp [hbt], ?_⟩
        rw [load_config, hbt] at hc
        dsimp only at hc
        by_cases hcond : ((r.x_frac.isSome && r.y_frac.isSome) ||
            (r.x.isSome && r.y.isSome)) = false
        · rw [if_pos hcond] at hc
          exact absurd hc (by simp)
        · have h : ((r.x_frac.isSome && r.y_frac.isSome) ||
              (r.x.isSome && r.y.isSome)) = true := by
            rcases Bool.eq_false_or_eq_true ((r.x_frac.isSome && r.y_frac.isSome) ||
                (r.x.isSome && r.y.isSome)) with h | h
            · exact h
            · exact absurd h hcond
          rw [Bool.or_eq_true] at h
          exact h
    · rintro ⟨hbt, hpos⟩
      rcases hbt' : r.button_toggle with _ | bt
      · rw [hbt'] at hbt
        exact absurd hbt (by simp)
      · have hcond : ((r.x_frac.isSome && r.y_frac.isSome) ||
            (r.x.isSome && r.y.isSome)) = true := by
          rcases hpos with h | h <;> simp [h]
        unfold load_config
        rw [hbt']
        dsimp only
        rw [if_neg (by rw [hcond]; simp)]
        exact ⟨_, rfl⟩
  · intro cfg K now mr cursor s h0 hg hoff hreq hdeb
    rw [processEvent_toggle_accepted cfg K now mr cursor s hg (Or.inl hreq) hdeb h0]

/-- Witness for C8 (amended): the ambiguous raw input of the counterexample
satisfies the acceptance characterisation, and at runtime, with Toggle and
ForceOff both on button 0, a press of button 0 at time 1 from the startup
state activates (the Toggle branch wins over ForceOff). -/
theorem C8_ambiguous_binding_amended_witness :
    (∃ c, load_config { rawBase with button_off := some 0 } = .ok c) ∧
    (processEvent { baseCfg with button_off := some 0 } baseK 1 false (100, 100)
      (initState baseK 0)
      (.down baseK.instance_id
        ({ baseCfg with button_off := some 0 } : Cfg).button_toggle)).1.active = true :=
  ⟨(C8_ambiguous_binding_amended.1 { rawBase with button_off := some 0 }).mpr
      ⟨rfl, Or.inl rfl⟩,
   C8_ambiguous_binding_amended.2 { baseCfg with button_off := some 0 } baseK 1 false
     (100, 100) (initState baseK 0) rfl (by norm_num [baseK]) rfl rfl
     (by norm_num [debounce_s, initState])⟩
